import Mathlib

/-!
Verification of the PingCrafty scanning engine against its specification.

Shallow embedding of the relevant parts of the source:
  * `src/core/protocol.py`  — VarInt codec, modern SLP ping, legacy ping
  * `src/core/scanner.py`   — per-target scan loop and statistics counters
  * `src/core/database.py`  — endpoint-row update (`SQLiteBackend.store_server`)
  * `src/parsers/server_parser.py` — status-document parser and software
    classification

Machine integers are modelled as `Nat`/`Int` (Python integers are unbounded);
bytes are `Nat`s below 256; Python exceptions are modelled with
`Except`/`Option`; wall-clock time (for the probe-deadline claim) is modelled
as `WithTop Nat`, with `⊤` standing for "never completes".
-/

namespace PingCrafty

/-! ### VarInt codec (`src/core/protocol.py`) -/

/-- Outcome of the VarInt-decoding loop at the top of
`MinecraftProtocol._read_packet` (protocol.py:224-240).
`eof` models `if not byte: return None` (the stream ended);
`varintTooBig` models `raise ProtocolError("VarInt too big")`. -/
inductive ReadVarintResult where
  | ok (value : Nat) (rest : List Nat)
  | eof
  | varintTooBig
deriving DecidableEq, Repr

/-- The VarInt-decoding loop of `MinecraftProtocol._read_packet`
(protocol.py:224-240), reading from a byte list:

```
length = 0; shift = 0
while True:
    byte = await reader.read(1)
    if not byte: return None
    value = byte[0]
    length |= (value & 0x7F) << shift
    if not (value & 0x80): break
    shift += 7
    if shift > 35: raise ProtocolError("VarInt too big")
```
-/
def read_varint : List Nat → Nat → Nat → ReadVarintResult
  | [], _, _ => .eof
  | b :: rest, length, shift =>
    let length' := length ||| ((b &&& 0x7F) <<< shift)
    if b &&& 0x80 = 0 then .ok length' rest
    else if shift + 7 > 35 then .varintTooBig
    else read_varint rest length' (shift + 7)

/-- `MinecraftProtocol._encode_varint` (protocol.py:261-272), modelled with
fuel so that the non-termination of the Python `while True:` loop on negative
inputs is observable (`none` for every fuel = the loop never exits):

```
result = bytearray()
while True:
    byte = value & 0x7F
    value >>= 7
    if value: byte |= 0x80
    result.append(byte)
    if not value: break
```

Python `value & 0x7F` on an arbitrary (possibly negative) int equals
`value % 128` with a non-negative remainder, and `value >> 7` is floor
division by 128; Lean's `Int` `%`/`/` (`emod`/`ediv`) agree with this for the
positive divisor 128. -/
def encode_varint_fuel : Nat → Int → Option (List Nat)
  | 0, _ => none
  | fuel + 1, value =>
    let byte := (value % 128).toNat
    let value' := value / 128
    if value' = 0 then some [byte]
    else match encode_varint_fuel fuel value' with
         | some rest => some ((byte ||| 0x80) :: rest)
         | none => none

/-- `MinecraftProtocol._encode_varint` specialised to non-negative inputs
(the only inputs on which the Python loop terminates); shown to agree with
the fueled model in `encode_varint_fuel_eq`. -/
def encode_varint (n : Nat) : List Nat :=
  if h : n / 128 = 0 then [n % 128]
  else (n % 128 ||| 0x80) :: encode_varint (n / 128)
decreasing_by
  exact Nat.div_lt_self (by omega) (by norm_num)

theorem int_emod_toNat (n : Nat) : (((n : Int) % 128).toNat) = n % 128 := by
  omega

theorem int_ediv_nat (n : Nat) : ((n : Int) / 128) = ((n / 128 : Nat) : Int) := by
  omega

/-- The fueled embedding and the `Nat` specialisation agree whenever the fuel
covers the number of 7-bit digits. -/
theorem encode_varint_fuel_eq (fuel : Nat) :
    ∀ n : Nat, n < 128 ^ (fuel + 1) →
      encode_varint_fuel (fuel + 1) (n : Int) = some (encode_varint n) := by
  induction fuel with
  | zero =>
    intro n h
    have h0 : n / 128 = 0 := Nat.div_eq_of_lt (by simpa using h)
    rw [encode_varint_fuel, int_emod_toNat, int_ediv_nat]
    have hz : ((n / 128 : Nat) : Int) = 0 := by exact_mod_cast h0
    rw [if_pos hz, encode_varint, dif_pos h0]
  | succ k ih =>
    intro n h
    rw [encode_varint_fuel, int_emod_toNat, int_ediv_nat]
    by_cases h0 : n / 128 = 0
    · have hz : ((n / 128 : Nat) : Int) = 0 := by exact_mod_cast h0
      rw [if_pos hz, encode_varint, dif_pos h0]
    · have hlt : n / 128 < 128 ^ (k + 1) := by
        rw [Nat.div_lt_iff_lt_mul (by norm_num)]
        calc n < 128 ^ (k + 2) := h
        _ = 128 ^ (k + 1) * 128 := by ring
      have hne : ¬ ((n / 128 : Nat) : Int) = 0 := by exact_mod_cast h0
      rw [if_neg hne, ih (n / 128) hlt]
      conv_rhs => rw [encode_varint, dif_neg h0]

/-- `encode_varint` always emits at least one byte. -/
theorem encode_varint_ne_nil (n : Nat) : encode_varint n ≠ [] := by
  rw [encode_varint]
  by_cases h : n / 128 = 0 <;> simp [h]

/-- Digit-count bound for the encoder. -/
theorem encode_varint_length :
    ∀ k n, n < 128 ^ (k + 1) → (encode_varint n).length ≤ k + 1 := by
  intro k
  induction k with
  | zero =>
    intro n h
    have : n / 128 = 0 := Nat.div_eq_of_lt (by simpa using h)
    rw [encode_varint]
    simp [this]
  | succ m ih =>
    intro n h
    rw [encode_varint]
    by_cases h0 : n / 128 = 0
    · simp [h0]
    · have hlt : n / 128 < 128 ^ (m + 1) := by
        rw [Nat.div_lt_iff_lt_mul (by norm_num)]
        calc n < 128 ^ (m + 2) := h
        _ = 128 ^ (m + 1) * 128 := by ring
      simp only [dif_neg h0, List.length_cons]
      exact Nat.succ_le_succ (ih (n / 128) hlt)

/-- Disjoint `lor` is addition: low bits below `2^s` or-ed with a value
shifted left by `s`. -/
theorem lor_shiftLeft_eq_add {a : Nat} (m s : Nat) (h : a < 2 ^ s) :
    a ||| (m <<< s) = a + m * 2 ^ s := by
  apply Nat.eq_of_testBit_eq
  intro i
  have hrw : a + m * 2 ^ s = 2 ^ s * m + a := by ring
  rw [Nat.testBit_lor, Nat.testBit_shiftLeft, hrw,
    Nat.testBit_mul_pow_two_add m h i]
  by_cases hi : s ≤ i
  · have : a.testBit i = false :=
      Nat.testBit_lt_two_pow (lt_of_lt_of_le h (Nat.pow_le_pow_right (by norm_num) hi))
    simp [hi, this, Nat.not_lt_of_le hi]
  · simp [hi, Nat.lt_of_not_le hi]

theorem and_127_eq_mod (x : Nat) : x &&& 127 = x % 128 := by
  have h := Nat.and_pow_two_sub_one_eq_mod x 7
  norm_num at h
  exact h

theorem and_128_eq (x : Nat) : x &&& 128 = x / 128 % 2 * 128 := by
  have h : x &&& 128 = (x.testBit 7).toNat * 2 ^ 7 := by
    have h7 : (128 : Nat) = 2 ^ 7 := by norm_num
    rw [h7, Nat.and_two_pow]
  have hx : (x.testBit 7).toNat = x / 128 % 2 := by
    rw [Nat.testBit_to_div_mod]
    have h7 : (2 : Nat) ^ 7 = 128 := by norm_num
    rw [h7]
    rcases Nat.mod_two_eq_zero_or_one (x / 128) with hd | hd <;> simp [hd]
  rw [h, hx]
  norm_num

theorem and_128_eq_zero_iff (x : Nat) : x &&& 128 = 0 ↔ x % 256 < 128 := by
  rw [and_128_eq]
  omega

/-- Round-trip of decode over encode, generalised over the accumulator,
shift and trailing bytes. -/
theorem read_varint_encode :
    ∀ n acc shift (rest : List Nat), acc < 2 ^ shift →
      shift + 7 * ((encode_varint n).length - 1) ≤ 35 →
      read_varint (encode_varint n ++ rest) acc shift = .ok (acc + n * 2 ^ shift) rest := by
  intro n
  induction n using Nat.strong_induction_on with
  | _ n ih =>
    intro acc shift rest hacc hshift
    rw [encode_varint]
    by_cases h0 : n / 128 = 0
    · have hn : n < 128 := by omega
      have hmod : n % 128 = n := Nat.mod_eq_of_lt hn
      simp only [dif_pos h0, hmod, List.cons_append, List.nil_append, read_varint]
      have hcont : n &&& 128 = 0 := by
        rw [and_128_eq_zero_iff]
        omega
      rw [and_127_eq_mod, hmod, if_pos hcont, lor_shiftLeft_eq_add n shift hacc]
    · have hb : n % 128 ||| 0x80 = n % 128 + 128 := by
        have := lor_shiftLeft_eq_add (a := n % 128) 1 7 (by omega)
        simpa using this
      simp only [dif_neg h0, List.cons_append, read_varint, hb]
      have hand127 : (n % 128 + 128) &&& 127 = n % 128 := by
        rw [and_127_eq_mod]
        omega
      have hand128 : ¬((n % 128 + 128) &&& 128 = 0) := by
        rw [and_128_eq_zero_iff]
        omega
      have hlen1 : 1 ≤ (encode_varint (n / 128)).length :=
        List.length_pos.mpr (encode_varint_ne_nil (n / 128))
      have hlen : (encode_varint n).length = (encode_varint (n / 128)).length + 1 := by
        rw [encode_varint, dif_neg h0, List.length_cons]
      rw [hlen] at hshift
      have hguard : ¬(shift + 7 > 35) := by omega
      rw [hand127, if_neg hand128, if_neg hguard]
      have hacc' : acc + (n % 128) * 2 ^ shift < 2 ^ (shift + 7) := by
        have h1 : n % 128 ≤ 127 := by omega
        have hmul := Nat.mul_le_mul_right (2 ^ shift) h1
        have h3 : 2 ^ (shift + 7) = 128 * 2 ^ shift := by
          rw [Nat.pow_add]; ring
        omega
      have hrec := ih (n / 128) (Nat.div_lt_self (by omega) (by norm_num))
        (acc + (n % 128) * 2 ^ shift) (shift + 7) rest hacc' (by omega)
      rw [lor_shiftLeft_eq_add (n % 128) shift hacc, hrec]
      have hsplit : acc + (n % 128) * 2 ^ shift + n / 128 * 2 ^ (shift + 7)
          = acc + n * 2 ^ shift := by
        have hd : 128 * (n / 128) + n % 128 = n := Nat.div_add_mod n 128
        have hp : 2 ^ (shift + 7) = 128 * 2 ^ shift := by
          rw [Nat.pow_add]; ring
        calc acc + (n % 128) * 2 ^ shift + n / 128 * 2 ^ (shift + 7)
            = acc + (128 * (n / 128) + n % 128) * 2 ^ shift := by rw [hp]; ring
        _ = acc + n * 2 ^ shift := by rw [hd]
      rw [hsplit]

/-- **C7.** VarInt round-trip: for every `0 ≤ n < 2³¹`, decoding the encoding
of `n` yields `n` with no bytes left over, and the encoding is at most 5
bytes long (spec §8 property 6; protocol.py:261-272 and 220-255). -/
theorem varint_round_trip (n : Nat) (h : n < 2 ^ 31) :
    read_varint (encode_varint n) 0 0 = .ok n [] ∧ (encode_varint n).length ≤ 5 := by
  have hlen : (encode_varint n).length ≤ 5 := by
    have : n < 128 ^ 5 := by
      calc n < 2 ^ 31 := h
      _ ≤ 128 ^ 5 := by norm_num
    exact encode_varint_length 4 n (by simpa using this)
  constructor
  · have := read_varint_encode n 0 0 [] (by norm_num) (by omega)
    simpa using this
  · exact hlen

/-- Witness for `varint_round_trip` at `n = 2³¹ - 1`. -/
theorem varint_round_trip_witness :
    (2147483647 : Nat) < 2 ^ 31 ∧
      (read_varint (encode_varint 2147483647) 0 0 = .ok 2147483647 [] ∧
        (encode_varint 2147483647).length ≤ 5) :=
  ⟨by norm_num, varint_round_trip 2147483647 (by norm_num)⟩

/-- **C6, counterexample.** The claim says the decoder fails whenever more
than five bytes are consumed, i.e. an input whose first five bytes all carry
the continuation bit makes it raise rather than read a sixth byte.  On the
input `[0x80, 0x80, 0x80, 0x80, 0x80, 0x01]` — first five bytes all with the
MSB set — the decoder of protocol.py:224-240 happily reads a *sixth* byte and
returns `1 <<< 35`, because the `shift > 35` check only fires after the sixth
continuation byte. -/
theorem varint_overflow_counterexample :
    ((0x80 : Nat) &&& 0x80 ≠ 0 ∧ (0x80 : Nat) &&& 0x80 ≠ 0 ∧ (0x80 : Nat) &&& 0x80 ≠ 0 ∧
      (0x80 : Nat) &&& 0x80 ≠ 0 ∧ (0x80 : Nat) &&& 0x80 ≠ 0) ∧
    read_varint [0x80, 0x80, 0x80, 0x80, 0x80, 0x01] 0 0 ≠ .varintTooBig ∧
    read_varint [0x80, 0x80, 0x80, 0x80, 0x80, 0x01] 0 0 = .ok 34359738368 [] := by
  refine ⟨by norm_num, ?_, ?_⟩ <;> decide

/-- **C6, amended.** The decoder reads one byte at a time and raises the
varint-overflow `ProtocolError` exactly when a *sixth* continuation byte is
seen: for every input whose first six bytes all have the MSB set, decoding
fails with `varintTooBig` (it never reads a seventh byte); five continuation
bytes followed by a terminating byte are still accepted. -/
theorem varint_overflow_after_six (b1 b2 b3 b4 b5 b6 : Nat) (rest : List Nat)
    (h1 : b1 &&& 0x80 ≠ 0) (h2 : b2 &&& 0x80 ≠ 0) (h3 : b3 &&& 0x80 ≠ 0)
    (h4 : b4 &&& 0x80 ≠ 0) (h5 : b5 &&& 0x80 ≠ 0) (h6 : b6 &&& 0x80 ≠ 0) :
    read_varint (b1 :: b2 :: b3 :: b4 :: b5 :: b6 :: rest) 0 0 = .varintTooBig := by
  rw [read_varint]
  rw [if_neg h1, if_neg (by norm_num : ¬(0 + 7 > 35))]
  rw [read_varint, if_neg h2, if_neg (by norm_num : ¬(0 + 7 + 7 > 35))]
  rw [read_varint, if_neg h3, if_neg (by norm_num : ¬(0 + 7 + 7 + 7 > 35))]
  rw [read_varint, if_neg h4, if_neg (by norm_num : ¬(0 + 7 + 7 + 7 + 7 > 35))]
  rw [read_varint, if_neg h5, if_neg (by norm_num : ¬(0 + 7 + 7 + 7 + 7 + 7 > 35))]
  rw [read_varint, if_neg h6, if_pos (by norm_num : 0 + 7 + 7 + 7 + 7 + 7 + 7 > 35)]

/-- Witness for `varint_overflow_after_six` with six `0x80` bytes. -/
theorem varint_overflow_after_six_witness :
    (0x80 : Nat) &&& 0x80 ≠ 0 ∧
      read_varint [0x80, 0x80, 0x80, 0x80, 0x80, 0x80] 0 0 = .varintTooBig :=
  ⟨by decide, varint_overflow_after_six 0x80 0x80 0x80 0x80 0x80 0x80 []
    (by decide) (by decide) (by decide) (by decide) (by decide) (by decide)⟩

/-- **C10.** The encoder loop terminates for every non-negative input,
producing at least one byte, and for every negative input the loop never
terminates (no amount of fuel makes `encode_varint_fuel` return): Python's
`value >>= 7` keeps a negative value negative forever, so `if not value:
break` is never reached.  Encoding is therefore well-defined exactly on
`value ≥ 0` (protocol.py:261-272). -/
theorem encode_varint_defined_iff_nonneg :
    (∀ n : Int, 0 ≤ n →
      encode_varint_fuel (n.toNat + 1) n = some (encode_varint n.toNat) ∧
        1 ≤ (encode_varint n.toNat).length) ∧
    (∀ (fuel : Nat) (n : Int), n < 0 → encode_varint_fuel fuel n = none) := by
  constructor
  · intro n hn
    have hcast : ((n.toNat : Nat) : Int) = n := Int.toNat_of_nonneg hn
    have hlt : n.toNat < 128 ^ (n.toNat + 1) := by
      calc n.toNat < 2 ^ n.toNat := Nat.lt_two_pow n.toNat
      _ ≤ 128 ^ n.toNat := Nat.pow_le_pow_left (by norm_num) n.toNat
      _ ≤ 128 ^ (n.toNat + 1) := Nat.pow_le_pow_right (by norm_num) (by omega)
    refine ⟨?_, ?_⟩
    · have := encode_varint_fuel_eq n.toNat n.toNat hlt
      rwa [hcast] at this
    · have := encode_varint_ne_nil n.toNat
      cases hE : encode_varint n.toNat with
      | nil => exact absurd hE this
      | cons a l => simp
  · intro fuel
    induction fuel with
    | zero => intro n _; rfl
    | succ k ih =>
      intro n hn
      have hdiv : n / 128 < 0 := Int.ediv_neg' hn (by norm_num)
      rw [encode_varint_fuel, if_neg (by omega), ih (n / 128) hdiv]

/-- Witness for `encode_varint_defined_iff_nonneg`: the loop yields
`[0x00]` on input `0` and diverges on the legacy sentinel `-1`. -/
theorem encode_varint_defined_iff_nonneg_witness :
    (0 : Int) ≤ 0 ∧ ((-1 : Int) < 0 ∧
      encode_varint_fuel 1 0 = some (encode_varint 0) ∧
      encode_varint_fuel 1000 (-1) = none) :=
  ⟨le_refl 0, by norm_num,
    (encode_varint_defined_iff_nonneg.1 0 (le_refl 0)).1,
    encode_varint_defined_iff_nonneg.2 1000 (-1) (by norm_num)⟩

/-! ### Probe deadline model (`MinecraftProtocol._modern_ping`,
protocol.py:154-190)

`_modern_ping` wraps **only** `asyncio.open_connection` in
`asyncio.wait_for(..., timeout=self.config.timeout)` (protocol.py:157-160).
The writes and the `reader.read` calls inside `_read_packet`
(protocol.py:228-231, 243) are awaited bare, with no deadline. -/

/-- Abstract timed behaviour of a probed peer.  `connDelay` is the time until
the TCP connection would be accepted, `replyDelay` the time from the status
request until the peer's reply is readable (`⊤` = the peer never writes). -/
structure PingPeer where
  accepts : Bool
  connDelay : Nat
  replyDelay : WithTop Nat

/-- Wall-clock duration of one `_modern_ping` attempt, read off the
`asyncio` structure of protocol.py:154-190: the connect phase is clamped to
`timeout` by `wait_for` (a `TimeoutError`/refusal ends the attempt at that
point), after which the attempt blocks on the un-guarded reads for as long as
the peer takes to reply. -/
def modern_ping_elapsed (timeout : Nat) (p : PingPeer) : WithTop Nat :=
  if p.accepts then
    if p.connDelay ≤ timeout then (p.connDelay : WithTop Nat) + p.replyDelay
    else (timeout : WithTop Nat)
  else (min p.connDelay timeout : WithTop Nat)

/-- **C1 (code bug).** The claim (spec §4.2) requires the whole probe
sequence — connect, send, read, close — to complete within
`config.timeout`.  At the failing input (a peer that accepts the connection
immediately and never writes, `timeout = 5`), the code's elapsed time is `⊤`:
the bare `reader.read(1)` inside `_read_packet` has no deadline, so the
attempt suspends forever and in particular does not meet the deadline. -/
theorem modern_ping_read_unbounded :
    modern_ping_elapsed 5 ⟨true, 0, ⊤⟩ = ⊤ ∧
      ¬ modern_ping_elapsed 5 ⟨true, 0, ⊤⟩ ≤ (5 : WithTop Nat) := by
  constructor
  · simp [modern_ping_elapsed]
  · simp [modern_ping_elapsed]

/-! ### Python JSON values (`json.loads` output) -/

/-- A Python value as produced by `json.loads`, plus the booleans/`None` the
code itself inserts.  Floats occur in no claim and are omitted. -/
inductive JVal where
  | null
  | bool (b : Bool)
  | int (n : Int)
  | str (s : String)
  | list (xs : List JVal)
  | dict (kvs : List (String × JVal))

/-- Python truthiness (`if value:`). -/
def truthy : JVal → Bool
  | .null => false
  | .bool b => b
  | .int n => n != 0
  | .str s => s != ""
  | .list xs => !xs.isEmpty
  | .dict kvs => !kvs.isEmpty

/-- Python `dict.get(key, default)` on an association list. -/
def dget (kvs : List (String × JVal)) (k : String) (d : JVal) : JVal :=
  match kvs.lookup k with
  | some v => v
  | none => d

/-- `response_data.get(key, default)` (the parser only ever receives dicts). -/
def jget (r : JVal) (k : String) (d : JVal) : JVal :=
  match r with
  | .dict kvs => dget kvs k d
  | _ => d

/-- Python `key in dict`. -/
def hasKey (r : JVal) (k : String) : Bool :=
  match r with
  | .dict kvs => (kvs.lookup k).isSome
  | _ => false

/-- Python dict assignment `d[k] = v`: replace in place or append. -/
def dset : List (String × JVal) → String → JVal → List (String × JVal)
  | [], k, v => [(k, v)]
  | (k0, v0) :: rest, k, v =>
    if k0 = k then (k0, v) :: rest else (k0, v0) :: dset rest k v

/-- Python `a or b` on values. -/
def pyOr (a b : JVal) : JVal := if truthy a then a else b

mutual
/-- Python `repr(value)` restricted to what `str()` of a container shows;
total best-effort rendering (no claim inspects container renderings). -/
def pyRepr : JVal → String
  | .null => "None"
  | .bool true => "True"
  | .bool false => "False"
  | .int n => toString n
  | .str s => "\x27" ++ s ++ "\x27"
  | .list xs => "[" ++ String.intercalate ", " (pyReprList xs) ++ "]"
  | .dict kvs => "\x7b" ++ String.intercalate ", " (pyReprDict kvs) ++ "\x7d"

def pyReprList : List JVal → List String
  | [] => []
  | x :: xs => pyRepr x :: pyReprList xs

def pyReprDict : List (String × JVal) → List String
  | [] => []
  | (k, v) :: kvs => ("\x27" ++ k ++ "\x27: " ++ pyRepr v) :: pyReprDict kvs
end

/-- Python `str(value)`. -/
def pyStr : JVal → String
  | .str s => s
  | v => pyRepr v

/-- Hex digit (lowercase), for `\uXXXX` escapes. -/
def hexDigit (n : Nat) : Char :=
  if n < 10 then Char.ofNat (48 + n) else Char.ofNat (87 + n % 16)

def uEscape4 (n : Nat) : String :=
  String.mk ['\\', 'u', hexDigit (n / 4096 % 16), hexDigit (n / 256 % 16),
    hexDigit (n / 16 % 16), hexDigit (n % 16)]

/-- One character of `json.dumps` output (`ensure_ascii=True` default). -/
def jsonEscapeChar (c : Char) : String :=
  if c = '"' then "\\\""
  else if c = '\\' then "\\\\"
  else if c = '\n' then "\\n"
  else if c = '\t' then "\\t"
  else if c = '\r' then "\\r"
  else if c.toNat = 8 then "\\b"
  else if c.toNat = 12 then "\\f"
  else if c.toNat < 0x20 then uEscape4 c.toNat
  else if c.toNat ≤ 0x7E then String.singleton c
  else if c.toNat < 0x10000 then uEscape4 c.toNat
  else uEscape4 (0xD800 + (c.toNat - 0x10000) / 1024) ++
    uEscape4 (0xDC00 + (c.toNat - 0x10000) % 1024)

def jsonQuote (s : String) : String :=
  "\"" ++ String.join (s.toList.map jsonEscapeChar) ++ "\""

mutual
/-- `json.dumps(value, separators=(",", ":"))` as used for `motd_raw`
(server_parser.py:89, 92). -/
def dumps : JVal → String
  | .null => "null"
  | .bool true => "true"
  | .bool false => "false"
  | .int n => toString n
  | .str s => jsonQuote s
  | .list xs => "[" ++ String.intercalate "," (dumpsList xs) ++ "]"
  | .dict kvs => "\x7b" ++ String.intercalate "," (dumpsDict kvs) ++ "\x7d"

def dumpsList : List JVal → List String
  | [] => []
  | x :: xs => dumps x :: dumpsList xs

def dumpsDict : List (String × JVal) → List String
  | [] => []
  | (k, v) :: kvs => (jsonQuote k ++ ":" ++ dumps v) :: dumpsDict kvs
end

/-! ### MOTD parsing (`MOTDParser`, server_parser.py:61-189) -/

/-- `MOTDParser.COLOR_CODES` (server_parser.py:64-71). -/
def COLOR_CODES : List (String × String) :=
  [("black", "0"), ("dark_blue", "1"), ("dark_green", "2"), ("dark_aqua", "3"),
   ("dark_red", "4"), ("dark_purple", "5"), ("purple", "5"), ("gold", "6"),
   ("gray", "7"), ("grey", "7"), ("dark_gray", "8"), ("dark_grey", "8"),
   ("blue", "9"), ("green", "a"), ("aqua", "b"), ("red", "c"),
   ("light_purple", "d"), ("pink", "d"), ("yellow", "e"), ("white", "f"),
   ("reset", "r")]

/-- `MOTDParser.FORMATTING_CODES` (server_parser.py:73-76), in Python dict
iteration order. -/
def FORMATTING_CODES : List (String × String) :=
  [("bold", "l"), ("italic", "o"), ("underlined", "n"),
   ("strikethrough", "m"), ("obfuscated", "k")]

def hexDigitVal (c : Char) : Option Nat :=
  if '0' ≤ c ∧ c ≤ '9' then some (c.toNat - 48)
  else if 'a' ≤ c ∧ c ≤ 'f' then some (c.toNat - 87)
  else if 'A' ≤ c ∧ c ≤ 'F' then some (c.toNat - 55)
  else none

/-- Python `int(s, 16)` on a hex-digit slice (`none` models `ValueError`,
e.g. for an empty slice). -/
def parseHexPy (cs : List Char) : Option Nat :=
  match cs with
  | [] => none
  | _ => cs.foldl (fun acc c =>
      match acc, hexDigitVal c with
      | some a, some d => some (a * 16 + d)
      | _, _ => none) (some 0)

/-- `MOTDParser._hex_to_legacy_color` (server_parser.py:147-172); its
internal try/except yields `"§r"` on any parse error. -/
def _hex_to_legacy_color (hex_color : String) : String :=
  let t := hex_color.toList.dropWhile (· = '#')
  match parseHexPy (t.take 2), parseHexPy ((t.drop 2).take 2),
      parseHexPy ((t.drop 4).take 2) with
  | some r, some g, some b =>
    if r > 200 ∧ g > 200 ∧ b > 200 then "§f"
    else if r < 50 ∧ g < 50 ∧ b < 50 then "§0"
    else if r > g ∧ r > b then (if r > 150 then "§c" else "§4")
    else if g > r ∧ g > b then (if g > 150 then "§a" else "§2")
    else if b > r ∧ b > g then (if b > 150 then "§9" else "§1")
    else "§7"
  | _, _, _ => "§r"

/-- Character class `[0-9a-fk-or]` of the legacy-code regexes
(server_parser.py:181, 183). -/
def isLegacyCode (c : Char) : Bool :=
  ('0' ≤ c ∧ c ≤ '9') ∨ ('a' ≤ c ∧ c ≤ 'f') ∨ ('k' ≤ c ∧ c ≤ 'o') ∨ c = 'r'

/-- `re.sub(r"§[0-9a-fk-or]", "", text)` / the same with `&`: left-to-right,
non-overlapping removal of marker+code pairs. -/
def stripMarkerCodes (marker : Char) : List Char → List Char
  | [] => []
  | [c] => [c]
  | c :: c2 :: rest =>
    if c = marker ∧ isLegacyCode c2 then stripMarkerCodes marker rest
    else c :: stripMarkerCodes marker (c2 :: rest)

/-- The literal prefix `\x7b"color":"` of the JSON-colour regex. -/
def colorPre : List Char := ['\x7b', '"', 'c', 'o', 'l', 'o', 'r', '"', ':', '"']

/-- Try to match the regex `\x7b"color":"[^"]*"\x7d` at the head of the
list; on success return the remainder after the match. -/
def matchColorAt (l : List Char) : Option (List Char) :=
  if colorPre.isPrefixOf l then
    match (l.drop 10).drop ((l.drop 10).takeWhile (· ≠ '"')).length with
    | a :: b :: tail => if a = '"' ∧ b = '\x7d' then some tail else none
    | _ => none
  else none

/-- `re.sub` of the `\x7b"color":"[^"]*"\x7d` pattern over the whole string
(server_parser.py:185), with fuel as structural measure: every step consumes
at least one character (a match consumes twelve or more), so fuel equal to
the input length never runs out. -/
def stripJsonColorF : Nat → List Char → List Char
  | 0, l => l
  | _, [] => []
  | gas + 1, c :: rest =>
    match matchColorAt (c :: rest) with
    | some tail => stripJsonColorF gas tail
    | none => c :: stripJsonColorF gas rest

def stripJsonColor (l : List Char) : List Char :=
  stripJsonColorF l.length l

/-- Python `str.split()` whitespace class (ASCII part). -/
def isPySpace (c : Char) : Bool :=
  c = ' ' ∨ c = '\t' ∨ c = '\n' ∨ c = '\r' ∨ c.toNat = 11 ∨ c.toNat = 12

/-- Python `text.split()`: split on whitespace runs, dropping empties. -/
def pyWords : List Char → List Char → List (List Char)
  | [], cur => if cur.isEmpty then [] else [cur.reverse]
  | c :: rest, cur =>
    if isPySpace c then
      if cur.isEmpty then pyWords rest [] else cur.reverse :: pyWords rest []
    else pyWords rest (c :: cur)

/-- Python `str.strip()`. -/
def pyStrip (s : String) : String :=
  String.mk (((s.toList.dropWhile isPySpace).reverse.dropWhile isPySpace).reverse)

/-- `MOTDParser._clean_formatting` (server_parser.py:174-189). -/
def _clean_formatting (text : String) : String :=
  if text = "" then ""
  else
    let cs := stripJsonColor (stripMarkerCodes '&' (stripMarkerCodes '§' text.toList))
    pyStrip (String.intercalate " " ((pyWords cs []).map String.mk))

/-- `MOTDParser._build_formatted_text` (server_parser.py:105-145), with the
recursion-depth cutoff expressed as a remaining `budget = 11 - depth` (the
source checks `depth > 10` and recurses at `depth + 1`; budget `0` is the
cutoff and every recursive call — list items, `extra`, `with` — passes
`budget - 1`).  The fuel is the first, structurally decreasing argument.
`Except.error` models the Python exceptions that can escape: `color in
COLOR_CODES` on an unhashable value (`TypeError`) or `.startswith` on a
non-string (`AttributeError`). -/
def _build_formatted_text : Nat → JVal → Except Unit String
  | 0, _ => .ok ""
  | budget + 1, obj =>
    match obj with
    | .str s => .ok s
    | .list xs =>
      xs.foldl (fun acc x =>
        match acc with
        | .error e => .error e
        | .ok s =>
          match _build_formatted_text budget x with
          | .error e => .error e
          | .ok t => .ok (s ++ t)) (.ok "")
    | .dict kvs =>
      let fmtPart := FORMATTING_CODES.foldl (fun acc p =>
        if truthy (dget kvs p.1 .null) then acc ++ "§" ++ p.2 else acc) ""
      let colorPart : Except Unit String :=
        match kvs.lookup "color" with
        | none => .ok ""
        | some (.str c) =>
          match COLOR_CODES.lookup c with
          | some code => .ok ("§" ++ code)
          | none =>
            if c.startsWith "#" ∧ c.length = 7 then .ok (_hex_to_legacy_color c)
            else .ok ""
        | some _ => .error ()
      match colorPart with
      | .error e => .error e
      | .ok colorS =>
        let textPart := match kvs.lookup "text" with
          | some tv => pyStr tv
          | none => ""
        match (match kvs.lookup "extra" with
               | some (.list xs) => _build_formatted_text budget (.list xs)
               | _ => .ok "") with
        | .error e => .error e
        | .ok extraS =>
          match (match kvs.lookup "with" with
                 | some (.list xs) => _build_formatted_text budget (.list xs)
                 | _ => .ok "") with
          | .error e => .error e
          | .ok withS => .ok (fmtPart ++ colorS ++ textPart ++ extraS ++ withS)
    | other => .ok (pyStr other)

/-- `MOTDParser.parse_motd` (server_parser.py:78-102): returns the pair
`(motd_raw, motd_formatted)` (the latter is what the store writes to the
`motd_clean` column, database.py:381).  The builder starts at depth 0,
i.e. budget `11`. -/
def parse_motd (description : JVal) : Option String × Option String :=
  if truthy description = false then (none, none)
  else
    match description with
    | .str s => (some s, some (_clean_formatting s))
    | .dict kvs =>
      match _build_formatted_text 11 (.dict kvs) with
      | .ok f => (some (dumps (.dict kvs)), some f)
      | .error _ => (some ((pyStr (.dict kvs)).take 500), none)
    | .list xs =>
      match _build_formatted_text 11 (.dict [("extra", .list xs)]) with
      | .ok f => (some (dumps (.list xs)), some f)
      | .error _ => (some ((pyStr (.list xs)).take 500), none)
    | other => (some (pyStr other), some (_clean_formatting (pyStr other)))

/-! ### Software classification and status parsing
(`ServerResponseParser`, server_parser.py:191-436) -/

/-- `ServerType` enum (server_parser.py:17-33). -/
inductive ServerType where
  | vanilla | paper | spigot | bukkit | purpur | folia | pufferfish
  | forge | neoforge | fabric | quilt | velocity | bungeecord | waterfall
  | unknown
deriving DecidableEq, Repr

def containsAux (needle : List Char) : List Char → Bool
  | [] => needle.isEmpty
  | c :: rest => needle.isPrefixOf (c :: rest) || containsAux needle rest

/-- Case-sensitive substring test (`needle in haystack` on Python strings). -/
def strContains (hay needle : String) : Bool :=
  containsAux needle.toList hay.toList

def isDigits (cs : List Char) : Bool :=
  !cs.isEmpty && cs.all Char.isDigit

/-- `re.match(r"^1\.\d+(\.\d+)?$", s)` (server_parser.py:326). -/
def matches_vanilla_version (s : String) : Bool :=
  match s.toList with
  | '1' :: '.' :: rest =>
    let d1 := rest.takeWhile Char.isDigit
    if d1.isEmpty then false
    else
      match rest.drop d1.length with
      | [] => true
      | '.' :: rest2 => isDigits rest2
      | _ => false
  | _ => false

/-- `version_lower = version_name.lower() if version_name else ""`
(server_parser.py:266); `.error` is the `AttributeError` on a truthy
non-string value. -/
def version_lower_exc (version_name : JVal) : Except Unit String :=
  if truthy version_name then
    match version_name with
    | .str s => .ok s.toLower
    | _ => .error ()
  else .ok ""

/-- `version_name or ""` as fed to `re.match` (server_parser.py:326);
`.error` is the `TypeError` on a truthy non-string value. -/
def version_str_exc (version_name : JVal) : Except Unit String :=
  if truthy version_name then
    match version_name with
    | .str s => .ok s
    | _ => .error ()
  else .ok ""

/-- The MOTD-keyword fallback of `_detect_server_type`
(server_parser.py:304-319): `some t` when one of the keyword groups hits. -/
def motd_type_hit (response : JVal) : Option ServerType :=
  let motd_text :=
    if hasKey response "description" then
      ((parse_motd (jget response "description" .null)).2.getD "").toLower
    else ""
  if motd_text ≠ "" then
    if strContains motd_text "paper" || strContains motd_text "purpur" ||
        strContains motd_text "folia" then some .paper
    else if strContains motd_text "spigot" || strContains motd_text "bukkit" then
      some .spigot
    else if strContains motd_text "forge" || strContains motd_text "modded" ||
        strContains motd_text "mods" then some .forge
    else if strContains motd_text "fabric" || strContains motd_text "quilt" then
      some .fabric
    else none
  else none

/-- `ServerResponseParser._detect_server_type` (server_parser.py:255-333)
before its catch-all handler; `Except.error` models a Python exception inside
the `try` (e.g. `.lower()` on a truthy non-string version name). -/
def detect_server_type_exc (response : JVal) (version_name : JVal) :
    Except Unit ServerType :=
  if truthy (jget response "isModded" .null) || truthy (jget response "modded" .null) then
    .ok .neoforge
  else if hasKey response "forgeData" || hasKey response "modinfo" then
    .ok .forge
  else
    match version_lower_exc version_name with
    | .error e => .error e
    | .ok version_lower =>
      if strContains version_lower "paper" then
        if strContains version_lower "purpur" then .ok .purpur
        else if strContains version_lower "folia" then .ok .folia
        else if strContains version_lower "pufferfish" then .ok .pufferfish
        else .ok .paper
      else if strContains version_lower "spigot" then .ok .spigot
      else if strContains version_lower "bukkit" || strContains version_lower "craftbukkit" then
        .ok .bukkit
      else if strContains version_lower "forge" || strContains version_lower "fml" then
        if strContains version_lower "neoforge" then .ok .neoforge else .ok .forge
      else if strContains version_lower "fabric" then .ok .fabric
      else if strContains version_lower "quilt" then .ok .quilt
      else if strContains version_lower "velocity" then .ok .velocity
      else if strContains version_lower "bungeecord" then .ok .bungeecord
      else if strContains version_lower "waterfall" then .ok .waterfall
      else
        match motd_type_hit response with
        | some t => .ok t
        | none =>
          if strContains version_lower "minecraft server" ||
              strContains version_lower "vanilla" then .ok .vanilla
          else
            match version_str_exc version_name with
            | .error e => .error e
            | .ok vn =>
              if matches_vanilla_version vn then .ok .vanilla else .ok .unknown

/-- `_detect_server_type` with its internal `try/except` (any exception
yields `UNKNOWN`, server_parser.py:331-333). -/
def _detect_server_type (response : JVal) (version_name : JVal) : ServerType :=
  match detect_server_type_exc response version_name with
  | .ok t => t
  | .error _ => .unknown

/-- A mod entry as accumulated by `_extract_mods`. -/
structure ModInfo where
  id : JVal
  version : JVal
  type : String

/-- Forge section of `_extract_mods` (server_parser.py:340-353). -/
def forgeModsSection (response : JVal) : List ModInfo :=
  let fd := pyOr (jget response "forgeData" .null) (jget response "modinfo" .null)
  if truthy fd then
    match fd with
    | .dict kvs =>
      match pyOr (dget kvs "mods" .null) (dget kvs "modList" (.list [])) with
      | .list ms => ms.filterMap (fun m =>
          match m with
          | .dict mk =>
            let mid := pyOr (dget mk "modId" .null) (dget mk "modid" (.str ""))
            let mver := pyOr (dget mk "version" .null) (dget mk "modmarker" (.str ""))
            if truthy mid then some ⟨mid, mver, "forge"⟩ else none
          | _ => none)
      | _ => []
    | _ => []
  else []

/-- Fabric section of `_extract_mods` (server_parser.py:355-367). -/
def fabricModsSection (response : JVal) : List ModInfo :=
  if hasKey response "fabricMods" then
    match jget response "fabricMods" .null with
    | .list ms => ms.filterMap (fun m =>
        match m with
        | .dict mk =>
          let mid := dget mk "id" (.str "")
          if truthy mid then some ⟨mid, dget mk "version" (.str ""), "fabric"⟩ else none
        | _ => none)
    | _ => []
  else []

/-- NeoForge section of `_extract_mods` (server_parser.py:369-381).
`response_data["neoForgeData"].get(...)` on a non-dict raises, which the
outer `except` turns into "return the mods collected so far". -/
def neoModsSection (response : JVal) : Except Unit (List ModInfo) :=
  if hasKey response "neoForgeData" then
    match jget response "neoForgeData" .null with
    | .dict kvs =>
      match dget kvs "mods" (.list []) with
      | .list ms => .ok (ms.filterMap (fun m =>
          match m with
          | .dict mk =>
            let mid := dget mk "modId" (.str "")
            if truthy mid then some ⟨mid, dget mk "version" (.str ""), "neoforge"⟩ else none
          | _ => none))
      | _ => .ok []
    | _ => .error ()
  else .ok []

/-- Plugins section of `_extract_mods` (server_parser.py:383-395). -/
def pluginsModsSection (response : JVal) : List ModInfo :=
  if hasKey response "plugins" then
    match jget response "plugins" .null with
    | .list ps => ps.filterMap (fun p =>
        match p with
        | .dict pk =>
          let mid := dget pk "name" (.str "")
          if truthy mid then some ⟨mid, dget pk "version" (.str ""), "plugin"⟩ else none
        | _ => none)
    | _ => []
  else []

/-- `ServerResponseParser._extract_mods` (server_parser.py:335-400): the
try/except returns the accumulated list at the point of an exception. -/
def _extract_mods (response : JVal) : List ModInfo :=
  let m1 := forgeModsSection response ++ fabricModsSection response
  match neoModsSection response with
  | .ok m2 => m1 ++ m2 ++ pluginsModsSection response
  | .error _ => m1

/-- `offline_indicators` (server_parser.py:423-426). -/
def OFFLINE_INDICATORS : List String :=
  ["cracked", "offline", "no premium", "no-premium",
   "pirate", "tlauncher", "free", "non-premium"]

/-- `ServerResponseParser._determine_online_mode` (server_parser.py:402-436). -/
def _determine_online_mode (response : JVal) : String :=
  if hasKey response "onlineMode" then
    if truthy (jget response "onlineMode" .null) then "online" else "offline"
  else if truthy (jget response "enforcesSecureChat" .null) then "online"
  else if truthy (jget response "preventsChatReports" .null) then "offline"
  else
    let motd_text :=
      if hasKey response "description" then
        ((parse_motd (jget response "description" .null)).2.getD "").toLower
      else ""
    if OFFLINE_INDICATORS.any (fun ind => strContains motd_text ind) then "offline"
    else "unknown"

/-- `ParsedServer` dataclass (server_parser.py:35-59).  Fields that Python
does not type-check keep the dynamic `JVal` type; dataclass defaults as in
the source. -/
structure ParsedServer where
  ip : String := ""
  port : Int := 25565
  version_name : JVal := .str "Unknown"
  protocol_version : JVal := .int (-1)
  server_type : ServerType := .unknown
  motd_raw : Option String := none
  motd_formatted : Option String := none
  favicon : Option JVal := none
  favicon_hash : Option String := none
  online_players : JVal := .int 0
  max_players : JVal := .int 0
  player_sample : List (String × JVal) := []
  mods : List ModInfo := []
  enforces_secure_chat : JVal := .null
  prevents_chat_reports : JVal := .null
  online_mode : String := "unknown"

/-- `str.replace("-", "")` on the sample uuid (server_parser.py:229). -/
def strRemoveDashes (s : String) : String :=
  String.mk (s.toList.filter (· ≠ '-'))

/-- One player-sample entry (server_parser.py:226-231); `.error` models the
`AttributeError` from `player["id"].replace` on a non-string id, which the
outer handler re-raises as `ParsingError`. -/
def sampleEntry (p : JVal) : Except Unit (Option (String × JVal)) :=
  match p with
  | .dict kvs =>
    match kvs.lookup "id", kvs.lookup "name" with
    | some idv, some namev =>
      match idv with
      | .str s => .ok (some (strRemoveDashes s, namev))
      | _ => .error ()
    | _, _ => .ok none
  | _ => .ok none

/-- The sample loop (server_parser.py:224-231), left to right, first
exception wins. -/
def sampleFold : List JVal → Except Unit (List (String × JVal))
  | [] => .ok []
  | p :: rest =>
    match sampleEntry p with
    | .error e => .error e
    | .ok entry =>
      match sampleFold rest with
      | .error e => .error e
      | .ok restL =>
        match entry with
        | some e => .ok (e :: restL)
        | none => .ok restL

def extract_sample (players : JVal) : Except Unit (List (String × JVal)) :=
  match players with
  | .dict kvs =>
    match dget kvs "sample" (.list []) with
    | .list xs => sampleFold xs
    | _ => .ok []
  | _ => .ok []

/-- Stand-in for `hashlib.md5(favicon.encode()).hexdigest()`
(server_parser.py:244): no claim inspects the digest value, only whether
computing it raises; modelled as a total function on strings. -/
def md5_hexdigest (s : String) : String := "md5-" ++ s

/-- Favicon handling (server_parser.py:241-244); `.error` models the
`AttributeError` from `favicon.encode()` on a truthy non-string value. -/
def favicon_step (response : JVal) : Except Unit (Option JVal × Option String) :=
  let fav := jget response "favicon" .null
  if truthy fav then
    match fav with
    | .str s => .ok (some fav, some (md5_hexdigest s))
    | _ => .error ()
  else .ok (none, none)

/-- `ServerResponseParser.parse_response` (server_parser.py:197-253).
`Except.error` is the `ParsingError` raised by the outer handler when the
body throws.  (`ip`/`port` keep their dataclass defaults; the scanner stores
them separately.) -/
def parse_response (response : JVal) : Except Unit ParsedServer :=
  let version_info := jget response "version" (.dict [])
  let vname :=
    match version_info with
    | .dict kvs => dget kvs "name" (.str "Unknown")
    | _ => (.str "Unknown" : JVal)
  let vproto :=
    match version_info with
    | .dict kvs => dget kvs "protocol" (.int (-1))
    | _ => (.int (-1) : JVal)
  let stype := _detect_server_type response vname
  let motdPair := parse_motd (jget response "description" .null)
  let players := jget response "players" (.dict [])
  let onl :=
    match players with
    | .dict kvs => dget kvs "online" (.int 0)
    | _ => (.int 0 : JVal)
  let mx :=
    match players with
    | .dict kvs => dget kvs "max" (.int 0)
    | _ => (.int 0 : JVal)
  match extract_sample players with
  | .error e => .error e
  | .ok sample =>
    match favicon_step response with
    | .error e => .error e
    | .ok favPair =>
      .ok { version_name := vname, protocol_version := vproto, server_type := stype,
            motd_raw := motdPair.1, motd_formatted := motdPair.2,
            favicon := favPair.1, favicon_hash := favPair.2,
            online_players := onl, max_players := mx,
            player_sample := sample, mods := _extract_mods response,
            enforces_secure_chat := jget response "enforcesSecureChat" .null,
            prevents_chat_reports := jget response "preventsChatReports" .null,
            online_mode := _determine_online_mode response }

def isOkE {α : Type} : Except Unit α → Bool
  | .ok _ => true
  | .error _ => false

/-! ### Claim C4: defensiveness of `parse_response` -/

/-- The favicon field is a string or falsy (the shapes on which
server_parser.py:241-244 does not raise). -/
def favicon_ok (response : JVal) : Bool :=
  match jget response "favicon" .null with
  | .str _ => true
  | v => !truthy v

/-- A sample entry whose `id` (when both `id` and `name` are present) is a
string — the shape on which server_parser.py:229 does not raise. -/
def sample_entry_ok (p : JVal) : Bool :=
  match p with
  | .dict kvs =>
    match kvs.lookup "id", kvs.lookup "name" with
    | some (.str _), some _ => true
    | some _, some _ => false
    | _, _ => true
  | _ => true

def sample_ok (response : JVal) : Bool :=
  match jget response "players" (.dict []) with
  | .dict kvs =>
    match dget kvs "sample" (.list []) with
    | .list xs => xs.all sample_entry_ok
    | _ => true
  | _ => true

theorem sample_entry_ok_eq (p : JVal) : sample_entry_ok p = isOkE (sampleEntry p) := by
  unfold sample_entry_ok sampleEntry isOkE
  cases p with
  | dict kvs =>
    cases h1 : kvs.lookup "id" with
    | none => simp [h1]
    | some idv =>
      cases h2 : kvs.lookup "name" with
      | none => simp [h1, h2]
      | some namev => cases idv <;> simp [h1, h2]
  | null => rfl
  | bool b => rfl
  | int n => rfl
  | str s => rfl
  | list xs => rfl

theorem sampleFold_isOk :
    ∀ xs : List JVal, (∀ p ∈ xs, sample_entry_ok p = true) →
      ∃ l, sampleFold xs = .ok l := by
  intro xs
  induction xs with
  | nil => intro _; exact ⟨[], rfl⟩
  | cons p rest ih =>
    intro h
    have hp : sample_entry_ok p = true := h p (by simp)
    rw [sample_entry_ok_eq] at hp
    obtain ⟨l, hl⟩ := ih (fun q hq => h q (by simp [hq]))
    cases he : sampleEntry p with
    | error e => rw [he] at hp; exact absurd hp (by simp [isOkE])
    | ok entry =>
      rw [sampleFold, he, hl]
      cases entry with
      | some e => exact ⟨_, rfl⟩
      | none => exact ⟨_, rfl⟩

theorem extract_sample_isOk {r : JVal} (h : sample_ok r = true) :
    ∃ l, extract_sample (jget r "players" (.dict [])) = .ok l := by
  unfold sample_ok at h
  unfold extract_sample
  cases hp : jget r "players" (.dict []) with
  | dict kvs =>
    simp only [hp] at h ⊢
    cases hs : dget kvs "sample" (.list []) with
    | list xs =>
      simp only [hs] at h ⊢
      exact sampleFold_isOk xs (fun p hmem => List.all_eq_true.mp h p hmem)
    | null => exact ⟨[], rfl⟩
    | bool b => exact ⟨[], rfl⟩
    | int n => exact ⟨[], rfl⟩
    | str s => exact ⟨[], rfl⟩
    | dict kvs2 => exact ⟨[], rfl⟩
  | null => exact ⟨[], rfl⟩
  | bool b => exact ⟨[], rfl⟩
  | int n => exact ⟨[], rfl⟩
  | str s => exact ⟨[], rfl⟩
  | list xs => exact ⟨[], rfl⟩

theorem favicon_step_isOk {r : JVal} (h : favicon_ok r = true) :
    ∃ v, favicon_step r = .ok v := by
  unfold favicon_ok at h
  unfold favicon_step
  cases hf : jget r "favicon" .null with
  | str s =>
    by_cases ht : truthy (.str s) = true
    · rw [if_pos ht]; exact ⟨_, rfl⟩
    · rw [if_neg ht]; exact ⟨_, rfl⟩
  | null => rw [if_neg (by simp [truthy])]; exact ⟨_, rfl⟩
  | bool b =>
    rw [hf] at h
    simp only [Bool.not_eq_true'] at h
    rw [if_neg (by simp [h])]
    exact ⟨_, rfl⟩
  | int n =>
    rw [hf] at h
    simp only [Bool.not_eq_true'] at h
    rw [if_neg (by simp [h])]
    exact ⟨_, rfl⟩
  | list xs =>
    rw [hf] at h
    simp only [Bool.not_eq_true'] at h
    rw [if_neg (by simp [h])]
    exact ⟨_, rfl⟩
  | dict kvs =>
    rw [hf] at h
    simp only [Bool.not_eq_true'] at h
    rw [if_neg (by simp [h])]
    exact ⟨_, rfl⟩

/-- **C4, counterexample.** The claim says `parse_response` returns a
`ParsedServer` without raising for *every* status dict, with a non-string
favicon and a non-string sample id explicitly called out as degrading.  In
the code both shapes raise: `\x7b"favicon": 1\x7d` reaches
`favicon.encode()` (server_parser.py:244) and a sample entry with an integer
id reaches `player["id"].replace` (server_parser.py:229); the outer handler
re-raises as `ParsingError`. -/
theorem parse_response_raises_counterexample :
    isOkE (parse_response (.dict [("favicon", .int 1)])) = false ∧
    isOkE (parse_response (.dict [("players", .dict [("sample",
      .list [.dict [("id", .int 5), ("name", .str "Steve")]])])])) = false := by
  constructor
  · rfl
  · rfl

/-- **C4, amended.** `parse_response` returns a `ParsedServer` without
raising for every status dict whose favicon is a string or falsy and whose
player-sample entries (dicts with both `id` and `name`) have string ids;
all other field reads are type-checked and degrade to defaults.  A truthy
non-string favicon or a non-string sample id raises `ParsingError` instead
of degrading (see the counterexample). -/
theorem parse_response_total_unless_favicon_or_sample (response : JVal)
    (hf : favicon_ok response = true) (hs : sample_ok response = true) :
    isOkE (parse_response response) = true := by
  obtain ⟨l, hl⟩ := extract_sample_isOk hs
  obtain ⟨v, hv⟩ := favicon_step_isOk hf
  unfold parse_response
  simp only [hl, hv]
  rfl

/-- Witness for `parse_response_total_unless_favicon_or_sample` on a dict
containing a string favicon and a well-formed sample entry. -/
theorem parse_response_total_witness :
    favicon_ok (.dict [("favicon", .str "data:image/png;base64,AAAA"),
      ("players", .dict [("sample", .list [.dict [("id", .str "ab-cd"), ("name", .str "Steve")]])])]) = true ∧
    sample_ok (.dict [("favicon", .str "data:image/png;base64,AAAA"),
      ("players", .dict [("sample", .list [.dict [("id", .str "ab-cd"), ("name", .str "Steve")]])])]) = true ∧
    isOkE (parse_response (.dict [("favicon", .str "data:image/png;base64,AAAA"),
      ("players", .dict [("sample", .list [.dict [("id", .str "ab-cd"), ("name", .str "Steve")]])])])) = true :=
  ⟨rfl, rfl, parse_response_total_unless_favicon_or_sample _ rfl rfl⟩

/-! ### Claim C5: classification priority of `isModded` vs `forgeData` -/

/-- **C5, counterexample.** The claim puts the `forgeData`/`modinfo ⇒ forge`
rule strictly before the `isModded`/`modded ⇒ neoforge` rule.  The code
checks `isModded`/`modded` *first* (server_parser.py:259-263): a document
with both `forgeData` and a truthy `isModded` flag classifies as `neoforge`,
not `forge`. -/
theorem modded_flag_counterexample :
    _detect_server_type
      (.dict [("forgeData", .dict [("mods", .list [])]), ("isModded", .bool true)])
      (.str "1.20.1-forge-47.2.0") = .neoforge ∧
    ServerType.neoforge ≠ ServerType.forge := by
  exact ⟨rfl, by decide⟩

/-- **C5, amended.** The `isModded`/`modded ⇒ neoforge` rule has priority 1,
strictly before the `forgeData`/`modinfo ⇒ forge` rule: any status document
with a truthy `isModded` or `modded` flag classifies as `neoforge` whatever
else it contains, and when both flags are absent or falsy, the presence of
`forgeData` or `modinfo` yields `forge` unconditionally (the version string
is not consulted by this rule). -/
theorem modded_flag_priority :
    (∀ r v : JVal,
      (truthy (jget r "isModded" .null) || truthy (jget r "modded" .null)) = true →
      _detect_server_type r v = .neoforge) ∧
    (∀ r v : JVal,
      (truthy (jget r "isModded" .null) || truthy (jget r "modded" .null)) = false →
      (hasKey r "forgeData" || hasKey r "modinfo") = true →
      _detect_server_type r v = .forge) := by
  constructor
  · intro r v h
    unfold _detect_server_type detect_server_type_exc
    rw [if_pos h]
  · intro r v h1 h2
    unfold _detect_server_type detect_server_type_exc
    rw [if_neg (by simp [h1]), if_pos h2]

/-- Witness for `modded_flag_priority` at concrete documents. -/
theorem modded_flag_priority_witness :
    _detect_server_type (.dict [("modded", .bool true), ("forgeData", .dict [])])
      (.str "1.21") = .neoforge ∧
    _detect_server_type (.dict [("modinfo", .dict [])]) (.str "1.21") = .forge :=
  ⟨modded_flag_priority.1 _ _ rfl, modded_flag_priority.2 _ _ rfl rfl⟩

/-! ### Legacy ping (`MinecraftProtocol._legacy_ping` /
`_parse_legacy_response`, protocol.py:274-335) -/

/-- Strict UTF-16-BE decoding of a byte sequence (Python
`bytes.decode("utf-16-be")`); `none` models `UnicodeDecodeError` (odd length
or an unpaired surrogate). -/
def utf16beDecode : List Nat → Option (List Char)
  | [] => some []
  | [_] => none
  | hi :: lo :: rest =>
    let u := hi % 256 * 256 + lo % 256
    if u < 0xD800 ∨ 0xDFFF < u then
      (utf16beDecode rest).map (fun cs => Char.ofNat u :: cs)
    else if u ≤ 0xDBFF then
      match rest with
      | hi2 :: lo2 :: rest2 =>
        let u2 := hi2 % 256 * 256 + lo2 % 256
        if 0xDC00 ≤ u2 ∧ u2 ≤ 0xDFFF then
          (utf16beDecode rest2).map (fun cs =>
            Char.ofNat (0x10000 + (u - 0xD800) * 1024 + (u2 - 0xDC00)) :: cs)
        else none
      | _ => none
    else none

/-- UTF-16-BE encoding, used only to build concrete wire inputs for the
legacy-ping scenario. -/
def utf16beEncode : List Char → List Nat
  | [] => []
  | c :: rest =>
    let n := c.toNat
    if n < 0x10000 then n / 256 :: n % 256 :: utf16beEncode rest
    else
      (0xD800 + (n - 0x10000) / 1024) / 256 :: (0xD800 + (n - 0x10000) / 1024) % 256 ::
      (0xDC00 + (n - 0x10000) % 1024) / 256 :: (0xDC00 + (n - 0x10000) % 1024) % 256 ::
      utf16beEncode rest

/-- Python `s.split(sep)` for a single-character separator (keeps empty
parts, as `str.split` with an explicit separator does). -/
def pySplitChar (sep : Char) : List Char → List Char → List (List Char)
  | [], cur => [cur.reverse]
  | c :: rest, cur =>
    if c = sep then cur.reverse :: pySplitChar sep rest []
    else pySplitChar sep rest (c :: cur)

def digitsVal (cs : List Char) : Option Nat :=
  if cs.isEmpty then none
  else if cs.all Char.isDigit then
    some (cs.foldl (fun a c => a * 10 + (c.toNat - 48)) 0)
  else none

/-- Python `int(s)` on a decimal string: optional surrounding whitespace,
optional sign, non-empty digit run; `none` models `ValueError`. -/
def pyInt (s : String) : Option Int :=
  match ((s.toList.dropWhile isPySpace).reverse.dropWhile isPySpace).reverse with
  | '+' :: ds => (digitsVal ds).map Int.ofNat
  | '-' :: ds => (digitsVal ds).map (fun n => -(n : Int))
  | ds => (digitsVal ds).map Int.ofNat

/-- `MinecraftProtocol._parse_legacy_response` (protocol.py:307-335): on a
`0xFF` kick packet, skip the 3-byte header, decode UTF-16-BE, split on NUL
and build the status dict; any exception in the `try` yields `None`. -/
def _parse_legacy_response (response : List Nat) : Option JVal :=
  match response with
  | [] => none
  | b0 :: _ =>
    if b0 = 0xFF then
      match utf16beDecode (response.drop 3) with
      | none => none
      | some chars =>
        let parts := (pySplitChar '\x00' chars []).map String.mk
        if parts.length ≥ 6 then
          match pyInt (parts.getD 4 ""), pyInt (parts.getD 5 "") with
          | some onl, some mx =>
            some (.dict
              [("version", .dict [("name", .str (parts.getD 2 "")), ("protocol", .int (-1))]),
               ("players", .dict [("online", .int onl), ("max", .int mx)]),
               ("description", .dict [("text", .str (parts.getD 3 ""))]),
               ("legacy_response", .bool true)])
          | _, _ => none
        else none
    else none

/-- `MinecraftProtocol._legacy_ping` from the point the reply bytes are in
hand (protocol.py:288-295): parse when more than one byte arrived and, when
the parse result is truthy, add `legacy = True` and
`ping_protocol_used = "legacy"`. -/
def legacy_ping_result (response : List Nat) : Option JVal :=
  if response.length > 1 then
    match _parse_legacy_response response with
    | some r =>
      if truthy r then
        match r with
        | .dict kvs =>
          some (.dict (dset (dset kvs "legacy" (.bool true)) "ping_protocol_used" (.str "legacy")))
        | _ => some r
      else some r
    | none => none
  else none

/-- The legacy kick packet of scenario S4: `0xFF`, a two-byte length, and the
UTF-16-BE body `§1\0127\01.5.2\0A legacy MOTD\03\020`. -/
def legacyExampleBytes : List Nat :=
  0xFF :: 0x00 :: 0x1F ::
    utf16beEncode "§1\x00127\x001.5.2\x00A legacy MOTD\x003\x0020".toList

def legacyExampleDoc : Option JVal := legacy_ping_result legacyExampleBytes

/-- **C9.** A peer answering the legacy ping with a `0xFF` kick packet whose
UTF-16-BE body is `§1\0127\01.5.2\0A legacy MOTD\03\020` parses to
`protocol_version = -1`, `version_name = "1.5.2"`, `online_players = 3`,
`max_players = 20`, `motd_clean = "A legacy MOTD"` (the `motd_formatted`
field, which the store writes to the `motd_clean` column) and a `legacy`
flag set to true on the status document. -/
theorem legacy_ping_example_fields :
    legacyExampleDoc.map (fun d => jget d "legacy" .null) = some (.bool true) ∧
    legacyExampleDoc.map (fun d => (parse_response d).map (·.version_name))
      = some (.ok (.str "1.5.2")) ∧
    legacyExampleDoc.map (fun d => (parse_response d).map (·.protocol_version))
      = some (.ok (.int (-1))) ∧
    legacyExampleDoc.map (fun d => (parse_response d).map (·.online_players))
      = some (.ok (.int 3)) ∧
    legacyExampleDoc.map (fun d => (parse_response d).map (·.max_players))
      = some (.ok (.int 20)) ∧
    legacyExampleDoc.map (fun d => (parse_response d).map (·.motd_formatted))
      = some (.ok (some "A legacy MOTD")) := by
  refine ⟨rfl, rfl, rfl, rfl, rfl, rfl⟩

/-! ### Scan coordination (`MinecraftScanner._scan_target`,
scanner.py:235-333) -/

/-- TCP-level behaviour of the probed peer during one `_modern_ping`
attempt.  Every network failure — whether or not the peer accepted the
connection — is caught inside `_modern_ping` (protocol.py:188-190) or turned
into `None` by `_read_packet` (protocol.py:229-231, 257-259). -/
inductive PeerBehavior where
  | refuse                -- connect refused / connect timeout (wait_for raises, caught)
  | acceptThenClose       -- accepted, nothing written, closed: empty read → None
  | acceptThenReset       -- accepted, then an error during the read: caught → None
  | acceptGarbage         -- accepted, malformed reply (bad varint / bad JSON): caught → None
  | reply (doc : JVal)    -- accepted and replied with a parseable status document

/-- Whether the peer accepted the TCP connection. -/
def PeerBehavior.accepted : PeerBehavior → Bool
  | .refuse => false
  | _ => true

def PeerBehavior.isReply : PeerBehavior → Bool
  | .reply _ => true
  | _ => false

/-- Result of one `_modern_ping` call (protocol.py:154-190): the decoded
status dict on success, `None` on every network failure; no exception ever
escapes. -/
def modern_ping_result : PeerBehavior → Option JVal
  | .reply doc => some doc
  | _ => none

/-- The retry loop of `MinecraftProtocol._ping_single_protocol`
(protocol.py:140-152): fuel counts the remaining iterations of
`for attempt in range(retries + 1)`. -/
def ping_single_go (behavior : Nat → PeerBehavior) : Nat → Nat → Option JVal
  | 0, _ => none
  | fuel + 1, attempt =>
    match modern_ping_result (behavior attempt) with
    | some r => if truthy r then some r else ping_single_go behavior fuel (attempt + 1)
    | none => ping_single_go behavior fuel (attempt + 1)

/-- `MinecraftProtocol._ping_single_protocol` (protocol.py:140-152). -/
def ping_single_protocol (retries : Nat) (behavior : Nat → PeerBehavior) : Option JVal :=
  ping_single_go behavior (retries + 1) 0

/-- `ScanStats` (scanner.py:52-60), the counters the claims mention. -/
structure ScanStats where
  total_scanned : Nat := 0
  servers_found : Nat := 0
  blacklisted_skipped : Nat := 0
  errors : Nat := 0
deriving DecidableEq, Repr

/-- The `while attempt <= retries` loop of `MinecraftScanner._scan_target`
(scanner.py:240-333) for a static blacklist verdict; `pings k` is the result
of the k-th scanner-level `ping_server` call, and fuel is the remaining
number of loop iterations (`retries + 1 - attempt`).  In the `try` body the
only statement that can raise after a truthy reply is `parse_response`
(`ParsingError`): geolocation (276-281), the db store (returns `False` on
failure), the result callback (297-301), the webhook (302-307) and the
modules (308-313) all swallow their exceptions.  A blacklisted target
returns from inside the loop (245) and so never reaches the trailing
`total_scanned += 1` (333); every other target reaches it exactly once. -/
def scan_target_loop (retries : Nat) (blacklisted : Bool) (pings : Nat → Option JVal) :
    Nat → Nat → ScanStats → ScanStats
  | 0, _, stats => { stats with total_scanned := stats.total_scanned + 1 }
  | fuel + 1, attempt, stats =>
    if blacklisted then
      { stats with blacklisted_skipped := stats.blacklisted_skipped + 1 }
    else
      match pings attempt with
      | some doc =>
        match parse_response doc with
        | .ok _ =>
          { stats with servers_found := stats.servers_found + 1,
                       total_scanned := stats.total_scanned + 1 }
        | .error _ =>
          if attempt + 1 > retries then
            scan_target_loop retries blacklisted pings fuel (attempt + 1)
              { stats with errors := stats.errors + 1 }
          else
            scan_target_loop retries blacklisted pings fuel (attempt + 1) stats
      | none =>
        scan_target_loop retries blacklisted pings fuel (attempt + 1) stats

/-- `MinecraftScanner._scan_target` (scanner.py:235-333). -/
def _scan_target (retries : Nat) (blacklisted : Bool) (pings : Nat → Option JVal)
    (stats : ScanStats) : ScanStats :=
  scan_target_loop retries blacklisted pings (retries + 1) 0 stats

/-- `ping_server` returns `None` whenever no attempt gets a reply, whatever
the peers' accept/close/reset behaviour. -/
theorem ping_single_go_none (behavior : Nat → PeerBehavior)
    (h : ∀ j, (behavior j).isReply = false) :
    ∀ fuel attempt, ping_single_go behavior fuel attempt = none := by
  intro fuel
  induction fuel with
  | zero => intro attempt; rfl
  | succ f ih =>
    intro attempt
    rw [ping_single_go]
    have hr : modern_ping_result (behavior attempt) = none := by
      have hj := h attempt
      cases hb : behavior attempt <;> rw [hb] at hj <;> first
        | rfl
        | exact absurd hj (by simp [PeerBehavior.isReply])
    rw [hr, ih]

/-- When every ping comes back `None`, the scan loop only increments
`total_scanned`. -/
theorem scan_loop_all_none (retries : Nat) (pings : Nat → Option JVal)
    (h : ∀ k, pings k = none) :
    ∀ fuel attempt s, scan_target_loop retries false pings fuel attempt s
      = { s with total_scanned := s.total_scanned + 1 } := by
  intro fuel
  induction fuel with
  | zero => intro attempt s; rfl
  | succ f ih =>
    intro attempt s
    rw [scan_target_loop, if_neg (by simp), h attempt]
    exact ih (attempt + 1) s

/-- **C2, counterexample.** The claim says a target whose peer accepts the
connection but never writes a valid reply increments `errors` by exactly
one.  With `retries = 2` and every attempt's peer accepting and then closing
without writing, the coordinator's `errors` stays 0 (each `ping_server`
call returns `None`, because `_modern_ping` swallows every network failure,
and the `None` branch of `_scan_target`, scanner.py:317-324, deliberately
does not count an error). -/
theorem silent_peer_no_error_counterexample :
    PeerBehavior.accepted .acceptThenClose = true ∧
    (_scan_target 2 false
      (fun _ => ping_single_protocol 2 (fun _ => .acceptThenClose)) {}).errors = 0 ∧
    ¬ (_scan_target 2 false
      (fun _ => ping_single_protocol 2 (fun _ => .acceptThenClose)) {}).errors = 1 := by
  refine ⟨rfl, rfl, by decide⟩

/-- **C2, amended.** A terminal network failure never increments `errors`,
whether or not the peer had accepted the connection: `ping_server` swallows
every network exception and returns `None`, which the coordinator counts as
a no-response — only `total_scanned` is incremented (`errors` moves only for
exceptions raised after a reply, e.g. parse failures). -/
theorem net_failure_never_counts_as_error (retries : Nat) (s : ScanStats)
    (bs : Nat → Nat → PeerBehavior)
    (h : ∀ i j, (bs i j).isReply = false) :
    _scan_target retries false (fun i => ping_single_protocol retries (bs i)) s
      = { s with total_scanned := s.total_scanned + 1 } := by
  unfold _scan_target
  exact scan_loop_all_none retries _
    (fun k => ping_single_go_none (bs k) (h k) (retries + 1) 0) (retries + 1) 0 s

/-- Witness for `net_failure_never_counts_as_error`: one accept-then-close
target with one retry only bumps `total_scanned`. -/
theorem net_failure_never_counts_as_error_witness :
    _scan_target 1 false (fun i => ping_single_protocol 1 (fun _ => .acceptThenClose)) {}
      = { total_scanned := 1 } :=
  net_failure_never_counts_as_error 1 {} (fun _ _ => .acceptThenClose) (fun _ _ => rfl)

/-- A scan target for the stats-partition claim: its (static) blacklist
verdict and its per-attempt `ping_server` outcomes. -/
structure Target where
  blacklisted : Bool
  pings : Nat → Option JVal

/-- Sequential composition of per-target scans over the consumed targets
(scanner.py:181-213 launches `_scan_target` once per generated target). -/
def run_scan (retries : Nat) (targets : List Target) (s : ScanStats) : ScanStats :=
  targets.foldl (fun st t => _scan_target retries t.blacklisted t.pings st) s

/-- Each pass through the scan loop adds exactly one to
`blacklisted_skipped + total_scanned`. -/
theorem scan_loop_partition (retries : Nat) (blacklisted : Bool)
    (pings : Nat → Option JVal) :
    ∀ fuel attempt s,
      (scan_target_loop retries blacklisted pings fuel attempt s).blacklisted_skipped
        + (scan_target_loop retries blacklisted pings fuel attempt s).total_scanned
      = s.blacklisted_skipped + s.total_scanned + 1 := by
  intro fuel
  induction fuel with
  | zero => intro attempt s; simp [scan_target_loop]; omega
  | succ f ih =>
    intro attempt s
    rw [scan_target_loop]
    split
    · simp
      omega
    · split
      · split
        · simp
          omega
        · split
          · rw [ih]
          · exact ih (attempt + 1) s
      · exact ih (attempt + 1) s

/-- The same, lifted through `_scan_target` and the other counters: a
blacklisted target adds `(1, 0)` to `(blacklisted_skipped, total_scanned)`,
every other target adds `(0, 1)`. -/
theorem scan_target_partition (retries : Nat) (blacklisted : Bool)
    (pings : Nat → Option JVal) (s : ScanStats) :
    (_scan_target retries blacklisted pings s).blacklisted_skipped
      + (_scan_target retries blacklisted pings s).total_scanned
    = s.blacklisted_skipped + s.total_scanned + 1 :=
  scan_loop_partition retries blacklisted pings (retries + 1) 0 s

/-- **C8.** Stats accounting identity: after any sequence of per-target
probes completes, `blacklisted_skipped + total_scanned` has grown by exactly
the number of targets consumed — a blacklisted target increments
`blacklisted_skipped` and skips `total_scanned` (the early `return` at
scanner.py:245 bypasses line 333), and every other target increments
`total_scanned` exactly once whatever the outcome. -/
theorem stats_partition (retries : Nat) (targets : List Target) (s : ScanStats) :
    (run_scan retries targets s).blacklisted_skipped
      + (run_scan retries targets s).total_scanned
    = s.blacklisted_skipped + s.total_scanned + targets.length := by
  induction targets generalizing s with
  | nil => simp [run_scan]
  | cons t rest ih =>
    have hstep := scan_target_partition retries t.blacklisted t.pings s
    have := ih (_scan_target retries t.blacklisted t.pings s)
    simp only [run_scan, List.foldl_cons, List.length_cons] at *
    omega

/-! ### Endpoint persistence (`SQLiteBackend.store_server`,
database.py:343-391) -/

/-- One endpoint row of the `servers` relation (the columns the claim
mentions). -/
structure EndpointRow where
  total_scans : Nat
  successful_scans : Nat
  availability_percentage : ℚ
deriving DecidableEq, Repr

/-- The `INSERT OR REPLACE INTO servers ...` statement of
`SQLiteBackend.store_server` (database.py:349-363): both counters are read
from the previous row (`COALESCE(..., 0)`) and incremented together, and the
availability is recomputed as `(successful + 1.0) / (total + 1) * 100`
behind a `CASE WHEN total + 1 > 0` guard. -/
def store_server_row (row : Option EndpointRow) : EndpointRow :=
  let t0 := (row.map (·.total_scans)).getD 0
  let s0 := (row.map (·.successful_scans)).getD 0
  { total_scans := t0 + 1
    successful_scans := s0 + 1
    availability_percentage :=
      if t0 + 1 > 0 then ((s0 : ℚ) + 1) / ((t0 : ℚ) + 1) * 100 else 0 }

/-- Endpoint-row evolution across a sequence of probes of one endpoint
(`true` = successful probe): `db.store_server` is called only in the success
branch of `_scan_target` (scanner.py:252-291); no database write of any kind
happens on a failed probe. -/
def endpoint_row_after (probes : List Bool) : Option EndpointRow :=
  probes.foldl (fun row ok => if ok then some (store_server_row row) else row) none

/-- **C3, counterexample.** The claim says the endpoint row is updated on
every subsequent probe, success or failure, with `total_scans` incrementing
on failures too.  After a successful probe followed by a failed one the row
still reads `total_scans = 1` (the failure wrote nothing), not the claimed
`2`. -/
theorem endpoint_row_failure_counterexample :
    endpoint_row_after [true, false]
      = some { total_scans := 1, successful_scans := 1, availability_percentage := 100 } ∧
    ¬ (endpoint_row_after [true, false]).map (·.total_scans) = some 2 := by
  constructor
  · show some (store_server_row none) = _
    unfold store_server_row
    norm_num
  · intro hc
    have : (endpoint_row_after [true, false]).map (·.total_scans) = some 1 := by
      show (some (store_server_row none)).map (·.total_scans) = some 1
      rfl
    rw [this] at hc
    simp at hc

theorem q_succ_div_self_mul_100 (n : Nat) : ((n : ℚ) + 1) / ((n : ℚ) + 1) * 100 = 100 := by
  have h : ((n : ℚ) + 1) ≠ 0 := by positivity
  rw [div_self h, one_mul]

theorem store_server_row_diag (k : Nat) :
    store_server_row (some { total_scans := k + 1, successful_scans := k + 1,
                             availability_percentage := 100 })
      = { total_scans := k + 2, successful_scans := k + 2,
          availability_percentage := 100 } := by
  unfold store_server_row
  simp only [Option.map_some, Option.getD_some]
  have h100 := q_succ_div_self_mul_100 (k + 1)
  push_cast at h100 ⊢
  rw [if_pos (by omega)]
  simp [h100]

theorem endpoint_foldl_diag (probes : List Bool) :
    ∀ k : Nat,
      probes.foldl (fun row ok => if ok then some (store_server_row row) else row)
        (some { total_scans := k + 1, successful_scans := k + 1,
                availability_percentage := 100 })
      = some { total_scans := k + 1 + probes.count true,
               successful_scans := k + 1 + probes.count true,
               availability_percentage := 100 } := by
  induction probes with
  | nil => intro k; simp
  | cons b rest ih =>
    intro k
    cases b with
    | false =>
      simp only [List.foldl_cons]
      rw [if_neg (show ¬(false = true) from by simp), ih k]
      simp [List.count_cons]
    | true =>
      simp only [List.foldl_cons, eq_self_iff_true, if_true]
      rw [store_server_row_diag k, show k + 2 = (k + 1) + 1 from rfl, ih (k + 1)]
      have hc : (true :: rest).count true = rest.count true + 1 := by simp
      rw [hc]
      have harith : k + 1 + 1 + rest.count true = k + 1 + (rest.count true + 1) := by omega
      rw [harith]

/-- **C3, amended.** The endpoint row is created on the first successful
probe and updated only on successful probes; failed probes leave the
database untouched.  Consequently after any probe sequence the row (when it
exists) reads `total_scans = successful_scans = number of successful
probes` and `availability_pct = successful_scans / total_scans × 100 =
100`. -/
theorem endpoint_row_only_successes (probes : List Bool) :
    endpoint_row_after probes =
      if probes.count true = 0 then none
      else some { total_scans := probes.count true,
                  successful_scans := probes.count true,
                  availability_percentage := 100 } := by
  induction probes with
  | nil => rfl
  | cons b rest ih =>
    cases b with
    | false =>
      unfold endpoint_row_after at ih ⊢
      simp only [List.foldl_cons]
      rw [if_neg (show ¬(false = true) from by simp), ih]
      simp [List.count_cons]
    | true =>
      unfold endpoint_row_after
      simp only [List.foldl_cons, eq_self_iff_true, if_true]
      have hstore : store_server_row none
          = { total_scans := 1, successful_scans := 1, availability_percentage := 100 } := by
        unfold store_server_row
        simp
      rw [hstore, show (1 : Nat) = 0 + 1 from rfl, endpoint_foldl_diag rest 0]
      have hcount : (true :: rest).count true = rest.count true + 1 := by simp
      rw [hcount, if_neg (by omega)]
      have harith : 0 + 1 + rest.count true = rest.count true + 1 := by omega
      rw [harith]

end PingCrafty
